import Mathlib

/-!
Verification of `src/emotion_detection.py` (function `emotion_detector`).

The Python function builds a fixed HTTP POST request, sends it, and then, inside
one `try` block: calls `response.raise_for_status()`, parses the body as JSON,
navigates `response_data['document']['emotion']['predictions'][0]['emotion']`,
computes `dominant_emotion = max(emotions, key=emotions.get)`, and returns the
dict `{'joy': …, 'anger': …, 'disgust': …, 'sadness': …, 'fear': …,
'dominant_emotion': …}`.  Seven `except` clauses (HTTPError, ConnectionError,
Timeout, RequestException, JSONDecodeError, KeyError, Exception) each print a
diagnostic message and return `None`.

The embedding models JSON values with rational numbers for JSON numbers, and a
JSON object as an association list in insertion order (Python dicts preserve
insertion order and have unique keys; theorems about records carry a `Nodup`
hypothesis on the keys where it matters).  The outcome of the outbound call is
an environment choice, modelled by `CallOutcome`.  The `try` block body is the
function `tryBody`, returning `Except Failure …` where each `Failure`
constructor corresponds to exactly one `except` clause; `emotion_detector`
collapses the error to `none` plus the printed diagnostic lines, exactly as the
Python handlers do.
-/

/-- A JSON value, as produced by `response.json()`.  Numbers are modelled as
rationals; objects are association lists in insertion order. -/
inductive Json where
  | obj (fields : List (String × Json))
  | arr (elems : List Json)
  | num (q : Rat)
  | str (s : String)
  | boolv (b : Bool)
  | nullv

/-- First-occurrence lookup in an association list (Python `d[k]` / `d.get(k)`
for dicts, whose keys are unique). -/
def plookup {α : Type} (k : String) : List (String × α) → Option α
  | [] => none
  | (k', v) :: rest => if k = k' then some v else plookup k rest

/-- The numeric view Python's `>` uses on a JSON score value: JSON numbers are
Python floats/ints, JSON booleans compare as the integers 0/1. -/
def Json.asNum : Json → Option Rat
  | Json.num q => some q
  | Json.boolv b => some (if b then 1 else 0)
  | _ => none

/-- Python's `v > w` on two JSON values: defined (`some`) when both are numeric
or both are strings; otherwise the comparison raises `TypeError` (`none`). -/
def cmpGT (v w : Json) : Option Bool :=
  match v.asNum, w.asNum with
  | some a, some b => some (decide (b < a))
  | _, _ =>
    match v, w with
    | Json.str a, Json.str b => some (decide (b < a))
    | _, _ => none

/-- The loop of Python's `max(emotions, key=emotions.get)`: carry the best key
and value so far, replace only when the next value is strictly greater.
A failed comparison is `TypeError`, modelled as `Except.error ()`. -/
def pyMaxAux (bestK : String) (bestV : Json) :
    List (String × Json) → Except Unit String
  | [] => Except.ok bestK
  | (k, v) :: rest =>
    match cmpGT v bestV with
    | none => Except.error ()
    | some true => pyMaxAux k v rest
    | some false => pyMaxAux bestK bestV rest

/-- Python's `max(emotions, key=emotions.get)` on the record's entries in
insertion order; empty dict raises `ValueError` (`Except.error ()`). -/
def pyMax : List (String × Json) → Except Unit String
  | [] => Except.error ()
  | (k, v) :: rest => pyMaxAux k v rest

/-- Errors raised while navigating
`response_data['document']['emotion']['predictions'][0]['emotion']`. -/
inductive NavErr where
  | keyError (k : String)
  | typeError
  | indexError
deriving DecidableEq

/-- Python `j['k']`: key lookup on a dict (missing key raises `KeyError`);
subscripting a list, string, number, bool or `None` with a string key raises
`TypeError`. -/
def getKey (k : String) (j : Json) : Except NavErr Json :=
  match j with
  | Json.obj fields =>
    match plookup k fields with
    | some v => Except.ok v
    | none => Except.error (NavErr.keyError k)
  | _ => Except.error NavErr.typeError

/-- Python `j[0]`: first element of a list (empty list raises `IndexError`);
a dict raises `KeyError` (the integer key 0 is never a JSON object key);
a string yields its first character (empty string raises `IndexError`);
numbers, booleans and `None` raise `TypeError`. -/
def getIndex0 (j : Json) : Except NavErr Json :=
  match j with
  | Json.arr (x :: _) => Except.ok x
  | Json.arr [] => Except.error NavErr.indexError
  | Json.obj _ => Except.error (NavErr.keyError "0")
  | Json.str s =>
    match s.toList with
    | c :: _ => Except.ok (Json.str (String.mk [c]))
    | [] => Except.error NavErr.indexError
  | _ => Except.error NavErr.typeError

/-- The fixed path `['document']['emotion']['predictions'][0]['emotion']`
from line 53 of the source. -/
def navigate (j : Json) : Except NavErr Json := do
  let d ← getKey "document" j
  let e ← getKey "emotion" d
  let p ← getKey "predictions" e
  let p0 ← getIndex0 p
  getKey "emotion" p0

/-- Which `except` clause of `emotion_detector` catches the raised exception:
one constructor per handler, in source order (lines 90-111). -/
inductive Failure where
  | httpError (status : Nat)
  | connectionError
  | timeoutError
  | requestError
  | jsonDecodeError
  | keyError (k : String)
  | otherError
deriving DecidableEq

def NavErr.toFailure : NavErr → Failure
  | NavErr.keyError k => Failure.keyError k
  | NavErr.typeError => Failure.otherError
  | NavErr.indexError => Failure.otherError

/-- A value of the returned dict: the five scores are JSON values copied from
the response record, `dominant_emotion` is a Python string. -/
inductive RVal where
  | jsonv (j : Json)
  | strv (s : String)

/-- `emotions[k]` in the return-dict literal (lines 82-86): a missing key
raises `KeyError`. -/
def getScore (k : String) (fields : List (String × Json)) :
    Except Failure Json :=
  match plookup k fields with
  | some v => Except.ok v
  | none => Except.error (Failure.keyError k)

/-- The dict literal returned on success (lines 81-88), with its keys in the
source's insertion order; Python evaluates the five lookups in that order. -/
def buildResult (fields : List (String × Json)) (dom : String) :
    Except Failure (List (String × RVal)) := do
  let vj ← getScore "joy" fields
  let va ← getScore "anger" fields
  let vd ← getScore "disgust" fields
  let vs ← getScore "sadness" fields
  let vf ← getScore "fear" fields
  Except.ok [("joy", RVal.jsonv vj), ("anger", RVal.jsonv va),
    ("disgust", RVal.jsonv vd), ("sadness", RVal.jsonv vs),
    ("fear", RVal.jsonv vf), ("dominant_emotion", RVal.strv dom)]

/-- What the outbound `requests.post` call does, chosen by the environment:
raise `ConnectionError`, raise `Timeout`, raise another `RequestException`,
or deliver a response with a status code and a body (`none` = body that is not
valid JSON, so `response.json()` raises `JSONDecodeError`). -/
inductive CallOutcome where
  | connectionError
  | timeoutError
  | requestError
  | response (status : Nat) (body : Option Json)

/-- The body of the `try` block (lines 25-88): `raise_for_status` raises
`HTTPError` for 4xx/5xx, then JSON decoding, then navigation, then
`max(emotions, key=emotions.get)` (which needs a dict: on a non-dict the
attribute access `.get` raises, landing in the catch-all), then the returned
dict literal. -/
def tryBody (o : CallOutcome) : Except Failure (List (String × RVal)) :=
  match o with
  | CallOutcome.connectionError => Except.error Failure.connectionError
  | CallOutcome.timeoutError => Except.error Failure.timeoutError
  | CallOutcome.requestError => Except.error Failure.requestError
  | CallOutcome.response status body =>
    if 400 ≤ status ∧ status < 600 then Except.error (Failure.httpError status)
    else
      match body with
      | none => Except.error Failure.jsonDecodeError
      | some j =>
        match navigate j with
        | Except.error e => Except.error e.toFailure
        | Except.ok emotionsJson =>
          match emotionsJson with
          | Json.obj emotions =>
            match pyMax emotions with
            | Except.error _ => Except.error Failure.otherError
            | Except.ok dom => buildResult emotions dom
          | _ => Except.error Failure.otherError

/-- The diagnostic lines printed by each `except` clause (lines 90-111); the
`KeyError` handler prints two lines.  Exception texts that come from the
`requests` library are not modelled beyond the fixed message prefix. -/
def logMessage : Failure → List String
  | Failure.httpError status => ["Error HTTP: " ++ toString status]
  | Failure.connectionError => ["Error de conexión: "]
  | Failure.timeoutError => ["Timeout de la solicitud: "]
  | Failure.requestError => ["Error general de solicitud: "]
  | Failure.jsonDecodeError => ["Error al decodificar JSON de la respuesta: "]
  | Failure.keyError k =>
    ["Clave no encontrada en la respuesta JSON: " ++ k ++
       ". Estructura de respuesta inesperada.",
     "Respuesta completa: "]
  | Failure.otherError => ["Ocurrió un error inesperado: "]

/-- `emotion_detector`, observed at its boundary: the returned value
(`some` dict or `None`) together with the diagnostic lines printed.  The input
text only shapes the outbound request (see `buildRequest`); the returned value
depends only on the call's outcome. -/
def emotion_detector (o : CallOutcome) :
    Option (List (String × RVal)) × List String :=
  match tryBody o with
  | Except.ok d => (some d, [])
  | Except.error f => (none, logMessage f)

/-- The outbound request built on lines 18-25.  `timeout` records the value of
the `timeout` keyword argument of the `requests.post` call: the source passes
none, so the field is `none`. -/
structure HttpRequest where
  url : String
  headers : List (String × String)
  body : Json
  timeout : Option Rat

def buildRequest (text_to_analyze : String) : HttpRequest :=
  { url := "https://sn-watson-emotion.labs.skills.network/v1/watson.runtime.nlp.v1/NlpService/EmotionPredict"
    headers := [("grpc-metadata-mm-model-id",
                 "emotion_aggregated-workflow_lang_en_stock")]
    body := Json.obj [("raw_document", Json.obj [("text",
              Json.str text_to_analyze)])]
    timeout := none }

/-- The five emotion labels in the fixed enumeration order used by the spec. -/
def fiveLabels : List String := ["anger", "disgust", "fear", "joy", "sadness"]

/-- A response body whose navigation path leads to the record `fields`. -/
def wrapBody (fields : List (String × Json)) : Json :=
  Json.obj [("document", Json.obj [("emotion", Json.obj
    [("predictions", Json.arr [Json.obj [("emotion", Json.obj fields)]])])])]

/-- The `dominant_emotion` entry of the returned dict, when the call
succeeded. -/
def dominantOf (out : Option (List (String × RVal)) × List String) :
    Option RVal :=
  out.1.bind (plookup "dominant_emotion")

/-- Spec-side definition, following the words of spec §3/§4.1 step 4: the
dominant label is the argmax over the five fixed labels' scores, ties broken
by the fixed enumeration order {anger, disgust, fear, joy, sadness}
(earliest wins) — independent of the record's own key order. -/
def specDominant (fields : List (String × Json)) : Option String :=
  match pyMax (fiveLabels.filterMap
      (fun l => (plookup l fields).map (fun v => (l, v)))) with
  | Except.ok l => some l
  | Except.error _ => none

/-- Bool test: the score value is a JSON number strictly below `q`. -/
def Json.numLt (v : Json) (q : Rat) : Bool :=
  match v with
  | Json.num r => decide (r < q)
  | _ => false

/-- Bool test: the score value is a JSON number at most `q`. -/
def Json.numLe (v : Json) (q : Rat) : Bool :=
  match v with
  | Json.num r => decide (r ≤ q)
  | _ => false

/-! ### Helper lemmas -/

theorem Json.numLe_of_numLt {v : Json} {q : Rat} (h : Json.numLt v q = true) :
    Json.numLe v q = true := by
  cases v <;> simp [Json.numLt, Json.numLe] at h ⊢
  exact le_of_lt h

theorem plookup_eq_some_of_mem_keys {α : Type} (k : String)
    (L : List (String × α)) (h : k ∈ L.map Prod.fst) :
    ∃ v, plookup k L = some v := by
  induction L with
  | nil => simp at h
  | cons p rest ih =>
    obtain ⟨k', v⟩ := p
    by_cases hk : k = k'
    · exact ⟨v, by simp [plookup, hk]⟩
    · have : k ∈ rest.map Prod.fst := by
        simpa [hk] using h
      obtain ⟨w, hw⟩ := ih this
      exact ⟨w, by simp [plookup, hk, hw]⟩

theorem mem_keys_of_plookup_eq_some {α : Type} {k : String}
    {L : List (String × α)} {v : α} (h : plookup k L = some v) :
    k ∈ L.map Prod.fst := by
  induction L with
  | nil => simp [plookup] at h
  | cons p rest ih =>
    obtain ⟨k', w⟩ := p
    by_cases hk : k = k'
    · simp [hk]
    · simp [plookup, hk] at h
      simpa [hk] using ih h

theorem pyMaxAux_keep (K : String) (b : Rat) (post : List (String × Json))
    (h : ∀ p ∈ post, Json.numLe p.2 b = true) :
    pyMaxAux K (Json.num b) post = Except.ok K := by
  induction post with
  | nil => rfl
  | cons p rest ih =>
    obtain ⟨k, v⟩ := p
    have hv := h (k, v) (List.mem_cons_self _ _)
    cases v with
    | num r =>
      have hr : r ≤ b := by simpa [Json.numLe] using hv
      have hc : cmpGT (Json.num r) (Json.num b) = some false := by
        simp [cmpGT, Json.asNum, not_lt.mpr hr]
      simp only [pyMaxAux, hc]
      exact ih (fun p hp => h p (List.mem_cons_of_mem _ hp))
    | obj fs => simp [Json.numLe] at hv
    | arr es => simp [Json.numLe] at hv
    | str s => simp [Json.numLe] at hv
    | boolv bb => simp [Json.numLe] at hv
    | nullv => simp [Json.numLe] at hv

theorem pyMaxAux_reach (l : String) (q : Rat) (post : List (String × Json))
    (hpost : ∀ p ∈ post, Json.numLe p.2 q = true)
    (pre : List (String × Json)) :
    ∀ (K : String) (b : Rat), b < q →
      (∀ p ∈ pre, Json.numLt p.2 q = true) →
      pyMaxAux K (Json.num b) (pre ++ (l, Json.num q) :: post) =
        Except.ok l := by
  induction pre with
  | nil =>
    intro K b hb _
    have hc : cmpGT (Json.num q) (Json.num b) = some true := by
      simp [cmpGT, Json.asNum, hb]
    simp only [List.nil_append, pyMaxAux, hc]
    exact pyMaxAux_keep l q post hpost
  | cons p pre ih =>
    intro K b hb hpre
    obtain ⟨k, v⟩ := p
    have hv := hpre (k, v) (List.mem_cons_self _ _)
    cases v with
    | num r =>
      have hr : r < q := by simpa [Json.numLt] using hv
      have hpre' : ∀ p ∈ pre, Json.numLt p.2 q = true :=
        fun p hp => hpre p (List.mem_cons_of_mem _ hp)
      by_cases hbr : b < r
      · have hc : cmpGT (Json.num r) (Json.num b) = some true := by
          simp [cmpGT, Json.asNum, hbr]
        simp only [List.cons_append, pyMaxAux, hc]
        exact ih k r hr hpre'
      · have hc : cmpGT (Json.num r) (Json.num b) = some false := by
          simp [cmpGT, Json.asNum, hbr]
        simp only [List.cons_append, pyMaxAux, hc]
        exact ih K b hb hpre'
    | obj fs => simp [Json.numLt] at hv
    | arr es => simp [Json.numLt] at hv
    | str s => simp [Json.numLt] at hv
    | boolv bb => simp [Json.numLt] at hv
    | nullv => simp [Json.numLt] at hv

/-- `max(emotions, key=emotions.get)` returns the key of the first entry, in
insertion order, whose numeric value attains the maximum: every entry before
it is strictly below its value and every entry after it is at most it. -/
theorem pyMax_firstmax (pre : List (String × Json)) (l : String) (q : Rat)
    (post : List (String × Json))
    (hpre : ∀ p ∈ pre, Json.numLt p.2 q = true)
    (hpost : ∀ p ∈ post, Json.numLe p.2 q = true) :
    pyMax (pre ++ (l, Json.num q) :: post) = Except.ok l := by
  cases pre with
  | nil =>
    simp only [List.nil_append, pyMax]
    exact pyMaxAux_keep l q post hpost
  | cons p pre =>
    obtain ⟨k, v⟩ := p
    have hv := hpre (k, v) (List.mem_cons_self _ _)
    cases v with
    | num r =>
      have hr : r < q := by simpa [Json.numLt] using hv
      simp only [List.cons_append, pyMax]
      exact pyMaxAux_reach l q post hpost pre k r hr
        (fun p hp => hpre p (List.mem_cons_of_mem _ hp))
    | obj fs => simp [Json.numLt] at hv
    | arr es => simp [Json.numLt] at hv
    | str s => simp [Json.numLt] at hv
    | boolv bb => simp [Json.numLt] at hv
    | nullv => simp [Json.numLt] at hv

/-- Navigation of a well-shaped body reaches the emotion record unchanged. -/
theorem navigate_wrapBody (fields : List (String × Json)) :
    navigate (wrapBody fields) = Except.ok (Json.obj fields) := rfl

/-- On a 200 response with a well-shaped body, the `try` block reduces to the
argmax computation followed by the dict literal. -/
theorem tryBody_wrap (fields : List (String × Json)) :
    tryBody (CallOutcome.response 200 (some (wrapBody fields))) =
      match pyMax fields with
      | Except.error _ => Except.error Failure.otherError
      | Except.ok dom => buildResult fields dom := rfl

theorem buildResult_eq (fields : List (String × Json)) (dom : String)
    (vj va vd vs vf : Json)
    (h1 : plookup "joy" fields = some vj)
    (h2 : plookup "anger" fields = some va)
    (h3 : plookup "disgust" fields = some vd)
    (h4 : plookup "sadness" fields = some vs)
    (h5 : plookup "fear" fields = some vf) :
    buildResult fields dom = Except.ok
      [("joy", RVal.jsonv vj), ("anger", RVal.jsonv va),
       ("disgust", RVal.jsonv vd), ("sadness", RVal.jsonv vs),
       ("fear", RVal.jsonv vf), ("dominant_emotion", RVal.strv dom)] := by
  simp [buildResult, getScore, h1, h2, h3, h4, h5, Bind.bind, Except.bind]

theorem buildResult_ok_iff (fields : List (String × Json)) (dom : String)
    (d : List (String × RVal)) :
    buildResult fields dom = Except.ok d ↔
      ∃ vj va vd vs vf,
        plookup "joy" fields = some vj ∧
        plookup "anger" fields = some va ∧
        plookup "disgust" fields = some vd ∧
        plookup "sadness" fields = some vs ∧
        plookup "fear" fields = some vf ∧
        d = [("joy", RVal.jsonv vj), ("anger", RVal.jsonv va),
             ("disgust", RVal.jsonv vd), ("sadness", RVal.jsonv vs),
             ("fear", RVal.jsonv vf), ("dominant_emotion", RVal.strv dom)] := by
  constructor
  · intro h
    cases h1 : plookup "joy" fields with
    | none => simp [buildResult, getScore, h1, Bind.bind, Except.bind] at h
    | some vj =>
      cases h2 : plookup "anger" fields with
      | none => simp [buildResult, getScore, h1, h2, Bind.bind, Except.bind] at h
      | some va =>
        cases h3 : plookup "disgust" fields with
        | none => simp [buildResult, getScore, h1, h2, h3, Bind.bind, Except.bind] at h
        | some vd =>
          cases h4 : plookup "sadness" fields with
          | none => simp [buildResult, getScore, h1, h2, h3, h4, Bind.bind, Except.bind] at h
          | some vs =>
            cases h5 : plookup "fear" fields with
            | none => simp [buildResult, getScore, h1, h2, h3, h4, h5, Bind.bind, Except.bind] at h
            | some vf =>
              refine ⟨vj, va, vd, vs, vf, rfl, rfl, rfl, rfl, rfl, ?_⟩
              have hb := buildResult_eq fields dom vj va vd vs vf h1 h2 h3 h4 h5
              rw [hb] at h
              exact (Except.ok.inj h).symm
  · rintro ⟨vj, va, vd, vs, vf, h1, h2, h3, h4, h5, rfl⟩
    exact buildResult_eq fields dom vj va vd vs vf h1 h2 h3 h4 h5

/-- Fully determined success behaviour of the adapter on a 200 response with a
well-shaped body. -/
theorem detector_success (fields : List (String × Json)) (dom : String)
    (vj va vd vs vf : Json)
    (hpy : pyMax fields = Except.ok dom)
    (h1 : plookup "joy" fields = some vj)
    (h2 : plookup "anger" fields = some va)
    (h3 : plookup "disgust" fields = some vd)
    (h4 : plookup "sadness" fields = some vs)
    (h5 : plookup "fear" fields = some vf) :
    emotion_detector (CallOutcome.response 200 (some (wrapBody fields))) =
      (some [("joy", RVal.jsonv vj), ("anger", RVal.jsonv va),
        ("disgust", RVal.jsonv vd), ("sadness", RVal.jsonv vs),
        ("fear", RVal.jsonv vf), ("dominant_emotion", RVal.strv dom)], []) := by
  have hb := buildResult_eq fields dom vj va vd vs vf h1 h2 h3 h4 h5
  have ht : tryBody (CallOutcome.response 200 (some (wrapBody fields))) =
      Except.ok [("joy", RVal.jsonv vj), ("anger", RVal.jsonv va),
        ("disgust", RVal.jsonv vd), ("sadness", RVal.jsonv vs),
        ("fear", RVal.jsonv vf), ("dominant_emotion", RVal.strv dom)] := by
    rw [tryBody_wrap, hpy]
    exact hb
  simp [emotion_detector, ht]

/-- Inversion: the `try` block succeeds only on a response whose status passed
`raise_for_status`, whose body parsed, navigated to a record, and whose argmax
and five lookups all succeeded. -/
theorem tryBody_ok_inv (o : CallOutcome) (d : List (String × RVal))
    (h : tryBody o = Except.ok d) :
    ∃ status j emotions dom,
      o = CallOutcome.response status (some j) ∧
      ¬(400 ≤ status ∧ status < 600) ∧
      navigate j = Except.ok (Json.obj emotions) ∧
      pyMax emotions = Except.ok dom ∧
      buildResult emotions dom = Except.ok d := by
  cases o with
  | connectionError => simp [tryBody] at h
  | timeoutError => simp [tryBody] at h
  | requestError => simp [tryBody] at h
  | response status body =>
    by_cases hstat : 400 ≤ status ∧ status < 600
    · simp [tryBody, hstat] at h
    · cases body with
      | none => simp [tryBody, hstat] at h
      | some j =>
        cases hn : navigate j with
        | error e => simp [tryBody, hstat, hn] at h
        | ok ej =>
          cases ej with
          | obj emotions =>
            cases hm : pyMax emotions with
            | error u => simp [tryBody, hstat, hn, hm] at h
            | ok dom =>
              refine ⟨status, j, emotions, dom, rfl, hstat, hn, hm, ?_⟩
              simpa [tryBody, hstat, hn, hm] using h
          | arr es => simp [tryBody, hstat, hn] at h
          | num q => simp [tryBody, hstat, hn] at h
          | str s => simp [tryBody, hstat, hn] at h
          | boolv b => simp [tryBody, hstat, hn] at h
          | nullv => simp [tryBody, hstat, hn] at h

/-- In a record with `Nodup` keys, split around one entry, no other entry
shares that entry's key. -/
theorem keys_split (pre post : List (String × Json)) (l : String) (q : Rat)
    (hnd : ((pre ++ (l, Json.num q) :: post).map Prod.fst).Nodup) :
    (∀ p ∈ pre, p.1 ≠ l) ∧ (∀ p ∈ post, p.1 ≠ l) := by
  rw [List.map_append, List.map_cons, List.nodup_append] at hnd
  obtain ⟨h1, h2, hdisj⟩ := hnd
  have hlpost : l ∉ post.map Prod.fst := (List.nodup_cons.mp h2).1
  constructor
  · intro p hp heq
    have hmem : p.1 ∈ pre.map Prod.fst := List.mem_map_of_mem Prod.fst hp
    rw [heq] at hmem
    exact hdisj hmem (List.mem_cons_self _ _)
  · intro p hp heq
    have hmem : p.1 ∈ post.map Prod.fst := List.mem_map_of_mem Prod.fst hp
    rw [heq] at hmem
    exact hlpost hmem

/-- When the record's keys are a permutation of the five labels, a succeeding
argmax determines the returned `dominant_emotion`. -/
theorem dominant_of_success (fields : List (String × Json)) (l : String)
    (hperm : List.Perm (fields.map Prod.fst) fiveLabels)
    (hpy : pyMax fields = Except.ok l) :
    dominantOf (emotion_detector (CallOutcome.response 200
      (some (wrapBody fields)))) = some (RVal.strv l) := by
  obtain ⟨vj, hj⟩ := plookup_eq_some_of_mem_keys "joy" fields
    (hperm.mem_iff.mpr (by decide))
  obtain ⟨va, ha⟩ := plookup_eq_some_of_mem_keys "anger" fields
    (hperm.mem_iff.mpr (by decide))
  obtain ⟨vd, hdg⟩ := plookup_eq_some_of_mem_keys "disgust" fields
    (hperm.mem_iff.mpr (by decide))
  obtain ⟨vs, hsd⟩ := plookup_eq_some_of_mem_keys "sadness" fields
    (hperm.mem_iff.mpr (by decide))
  obtain ⟨vf, hf⟩ := plookup_eq_some_of_mem_keys "fear" fields
    (hperm.mem_iff.mpr (by decide))
  have hsucc := detector_success fields l vj va vd vs vf hpy hj ha hdg hsd hf
  simp [dominantOf, hsucc, plookup]

/-! ### The claims -/

/-- C1: for every successful call in which the five emotion scores in the
response record are pairwise distinct, the returned `dominant_emotion` equals
the label among {anger, disgust, fear, joy, sadness} whose score is strictly
greatest.  (The label `l` below is the one with the strictly greatest score;
the record's key order is arbitrary.) -/
theorem C1_dominant_strict_max (fields : List (String × Json))
    (l : String) (q : Rat)
    (hperm : List.Perm (fields.map Prod.fst) fiveLabels)
    (hl : (l, Json.num q) ∈ fields)
    (hmax : ∀ p ∈ fields, p.1 ≠ l → Json.numLt p.2 q = true) :
    dominantOf (emotion_detector (CallOutcome.response 200
      (some (wrapBody fields)))) = some (RVal.strv l) := by
  have hnd : (fields.map Prod.fst).Nodup := hperm.symm.nodup (by decide)
  obtain ⟨pre, post, hsplit⟩ := List.append_of_mem hl
  subst hsplit
  obtain ⟨hpre_ne, hpost_ne⟩ := keys_split pre post l q hnd
  have hpy : pyMax (pre ++ (l, Json.num q) :: post) = Except.ok l :=
    pyMax_firstmax pre l q post
      (fun p hp => hmax p (List.mem_append_left _ hp) (hpre_ne p hp))
      (fun p hp => Json.numLe_of_numLt
        (hmax p (List.mem_append_right _ (List.mem_cons_of_mem _ hp))
          (hpost_ne p hp)))
  exact dominant_of_success _ l hperm hpy

theorem C1_witness :
    dominantOf (emotion_detector (CallOutcome.response 200 (some (wrapBody
      [("joy", Json.num 5), ("anger", Json.num 1), ("disgust", Json.num 2),
       ("fear", Json.num 3), ("sadness", Json.num 4)])))) =
      some (RVal.strv "joy") :=
  C1_dominant_strict_max _ "joy" 5 (by decide) (List.mem_cons_self _ _)
    (by decide)

/-- C2 counterexample: with `joy` and `anger` tied at the maximum and `joy`
first in the record's own key order, the code returns `joy`, while the fixed
enumeration order {anger, disgust, fear, joy, sadness} (followed by
`specDominant`, written from the spec's words) would give `anger`.  So ties
are NOT broken by the fixed enumeration order regardless of record key
order. -/
theorem C2_counterexample :
    dominantOf (emotion_detector (CallOutcome.response 200 (some (wrapBody
      [("joy", Json.num 1), ("anger", Json.num 1), ("disgust", Json.num 0),
       ("fear", Json.num 0), ("sadness", Json.num 0)])))) =
      some (RVal.strv "joy") ∧
    specDominant
      [("joy", Json.num 1), ("anger", Json.num 1), ("disgust", Json.num 0),
       ("fear", Json.num 0), ("sadness", Json.num 0)] = some "anger" ∧
    "joy" ≠ "anger" :=
  ⟨rfl, rfl, by decide⟩

/-- C2 (amended): if two or more scores are exactly equal and maximal, the
returned `dominant_emotion` is the label earliest in the response record's own
key (insertion) order among those achieving the maximum — not in the fixed
enumeration order.  `l` is the first key attaining the maximum: all entries
before it are strictly below its score `q`, all entries after it at most
`q`. -/
theorem C2_tie_first_in_record_order (pre post : List (String × Json))
    (l : String) (q : Rat)
    (hperm : List.Perm (((pre ++ (l, Json.num q) :: post)).map Prod.fst)
      fiveLabels)
    (hpre : ∀ p ∈ pre, Json.numLt p.2 q = true)
    (hpost : ∀ p ∈ post, Json.numLe p.2 q = true) :
    dominantOf (emotion_detector (CallOutcome.response 200
      (some (wrapBody (pre ++ (l, Json.num q) :: post))))) =
      some (RVal.strv l) :=
  dominant_of_success _ l hperm (pyMax_firstmax pre l q post hpre hpost)

theorem C2_witness :
    dominantOf (emotion_detector (CallOutcome.response 200 (some (wrapBody
      ([("fear", Json.num 0)] ++ ("joy", Json.num 1) ::
       [("anger", Json.num 1), ("disgust", Json.num 0),
        ("sadness", Json.num 1)]))))) =
      some (RVal.strv "joy") :=
  C2_tie_first_in_record_order [("fear", Json.num 0)]
    [("anger", Json.num 1), ("disgust", Json.num 0), ("sadness", Json.num 1)]
    "joy" 1 (by decide) (by decide) (by decide)

/-- C3 counterexample: a connection failure and a timeout raise distinct
exceptions (distinct `Failure` values, caught by distinct handlers), yet the
caller receives the identical untagged value `None` in both cases — failure
kinds are not distinguishable to the caller as tagged failure values. -/
theorem C3_counterexample :
    tryBody CallOutcome.connectionError =
      Except.error Failure.connectionError ∧
    tryBody CallOutcome.timeoutError = Except.error Failure.timeoutError ∧
    Failure.connectionError ≠ Failure.timeoutError ∧
    (emotion_detector CallOutcome.connectionError).1 = none ∧
    (emotion_detector CallOutcome.timeoutError).1 = none ∧
    (emotion_detector CallOutcome.connectionError).1 =
      (emotion_detector CallOutcome.timeoutError).1 :=
  ⟨rfl, rfl, by decide, rfl, rfl, rfl⟩

/-- C3 (amended): each failure kind is caught by its own handler and emits its
own distinct diagnostic message, so kinds are distinguishable in the logs —
but the caller receives only the uniform untagged value `None` for every
kind, never a tagged failure value. -/
theorem C3_distinct_logs_uniform_none :
    (∀ (o : CallOutcome) (f : Failure), tryBody o = Except.error f →
       emotion_detector o = (none, logMessage f)) ∧
    ([Failure.httpError 500, Failure.connectionError, Failure.timeoutError,
      Failure.requestError, Failure.jsonDecodeError,
      Failure.keyError "emotion", Failure.otherError].map logMessage).Nodup :=
  ⟨fun o f h => by simp [emotion_detector, h], by decide⟩

theorem C3_witness :
    emotion_detector CallOutcome.connectionError =
      (none, logMessage Failure.connectionError) :=
  C3_distinct_logs_uniform_none.1 CallOutcome.connectionError
    Failure.connectionError rfl

/-- C4: every failure of `emotion_detector` is caught locally, a diagnostic
message is emitted, and the caller receives the same uniform no-result value
`None`; the caller cannot distinguish failure kinds from the returned
value. -/
theorem C4_uniform_failure :
    (∀ (o : CallOutcome) (f : Failure), tryBody o = Except.error f →
       (emotion_detector o).1 = none ∧
       (emotion_detector o).2 = logMessage f ∧ (emotion_detector o).2 ≠ []) ∧
    (∀ (o o' : CallOutcome) (f f' : Failure),
       tryBody o = Except.error f → tryBody o' = Except.error f' →
       (emotion_detector o).1 = (emotion_detector o').1) := by
  constructor
  · intro o f h
    refine ⟨by simp [emotion_detector, h], by simp [emotion_detector, h], ?_⟩
    have : (emotion_detector o).2 = logMessage f := by
      simp [emotion_detector, h]
    rw [this]
    cases f <;> simp [logMessage]
  · intro o o' f f' h h'
    simp [emotion_detector, h, h']

theorem C4_witness :
    ((emotion_detector (CallOutcome.response 503 none)).1 = none ∧
     (emotion_detector (CallOutcome.response 503 none)).2 =
       logMessage (Failure.httpError 503) ∧
     (emotion_detector (CallOutcome.response 503 none)).2 ≠ []) ∧
    (emotion_detector CallOutcome.connectionError).1 =
      (emotion_detector CallOutcome.timeoutError).1 :=
  ⟨C4_uniform_failure.1 (CallOutcome.response 503 none)
     (Failure.httpError 503) rfl,
   C4_uniform_failure.2 CallOutcome.connectionError CallOutcome.timeoutError
     Failure.connectionError Failure.timeoutError rfl rfl⟩

/-- C5: the source calls `requests.post(url, headers=headers, json=input_json)`
with no `timeout` argument, so no invocation attaches an explicit finite
timeout — the outbound wait is unbounded, contrary to the claim (the
`except Timeout` handler at line 96 is unreachable without one).  This theorem
evaluates the built request: its timeout field is `none` for every input
text. -/
theorem C5_no_timeout_configured :
    ∀ text : String, (buildRequest text).timeout = none :=
  fun _ => rfl

/-- C6: for every response with a non-success HTTP status code (4xx/5xx),
`raise_for_status` raises before any parsing: the `try` block fails with the
HTTP failure for every body whatsoever, and the caller sees `None`. -/
theorem C6_http_error_no_parsing :
    ∀ (status : Nat) (b : Option Json), 400 ≤ status → status < 600 →
      tryBody (CallOutcome.response status b) =
        Except.error (Failure.httpError status) ∧
      (emotion_detector (CallOutcome.response status b)).1 = none := by
  intro s b hge hlt
  have ht : tryBody (CallOutcome.response s b) =
      Except.error (Failure.httpError s) := by
    simp [tryBody, hge, hlt]
  exact ⟨ht, by simp [emotion_detector, ht]⟩

theorem C6_witness :
    tryBody (CallOutcome.response 500 (some (wrapBody [("joy", Json.num 1)])))
      = Except.error (Failure.httpError 500) ∧
    (emotion_detector (CallOutcome.response 500
      (some (wrapBody [("joy", Json.num 1)])))).1 = none :=
  C6_http_error_no_parsing 500 (some (wrapBody [("joy", Json.num 1)]))
    (by decide) (by decide)

/-- C7: every successful call returns the flat map with exactly the six
entries, in the source's insertion order `joy, anger, disgust, sadness, fear,
dominant_emotion`: the five score values are copied from the navigated
response record by their fixed names, and `dominant_emotion` holds the label
string computed by the argmax. -/
theorem C7_success_shape (o : CallOutcome) (d : List (String × RVal))
    (h : (emotion_detector o).1 = some d) :
    ∃ status j emotions dom vj va vd vs vf,
      o = CallOutcome.response status (some j) ∧
      navigate j = Except.ok (Json.obj emotions) ∧
      pyMax emotions = Except.ok dom ∧
      plookup "joy" emotions = some vj ∧
      plookup "anger" emotions = some va ∧
      plookup "disgust" emotions = some vd ∧
      plookup "sadness" emotions = some vs ∧
      plookup "fear" emotions = some vf ∧
      d = [("joy", RVal.jsonv vj), ("anger", RVal.jsonv va),
           ("disgust", RVal.jsonv vd), ("sadness", RVal.jsonv vs),
           ("fear", RVal.jsonv vf), ("dominant_emotion", RVal.strv dom)] := by
  have ht : tryBody o = Except.ok d := by
    cases htb : tryBody o with
    | ok d2 =>
      simp [emotion_detector, htb] at h
      subst h
      rfl
    | error f => simp [emotion_detector, htb] at h
  obtain ⟨status, j, emotions, dom, ho, hstat, hn, hm, hb⟩ :=
    tryBody_ok_inv o d ht
  obtain ⟨vj, va, vd, vs, vf, h1, h2, h3, h4, h5, hd⟩ :=
    (buildResult_ok_iff emotions dom d).mp hb
  exact ⟨status, j, emotions, dom, vj, va, vd, vs, vf, ho, hn, hm,
    h1, h2, h3, h4, h5, hd⟩

theorem C7_witness :
    ∃ status j emotions dom vj va vd vs vf,
      CallOutcome.response 200 (some (wrapBody
        [("anger", Json.num 1), ("disgust", Json.num 2), ("fear", Json.num 3),
         ("joy", Json.num 4), ("sadness", Json.num 5)])) =
        CallOutcome.response status (some j) ∧
      navigate j = Except.ok (Json.obj emotions) ∧
      pyMax emotions = Except.ok dom ∧
      plookup "joy" emotions = some vj ∧
      plookup "anger" emotions = some va ∧
      plookup "disgust" emotions = some vd ∧
      plookup "sadness" emotions = some vs ∧
      plookup "fear" emotions = some vf ∧
      [("joy", RVal.jsonv (Json.num 4)), ("anger", RVal.jsonv (Json.num 1)),
       ("disgust", RVal.jsonv (Json.num 2)), ("sadness", RVal.jsonv (Json.num 5)),
       ("fear", RVal.jsonv (Json.num 3)), ("dominant_emotion", RVal.strv "sadness")] =
        [("joy", RVal.jsonv vj), ("anger", RVal.jsonv va),
         ("disgust", RVal.jsonv vd), ("sadness", RVal.jsonv vs),
         ("fear", RVal.jsonv vf), ("dominant_emotion", RVal.strv dom)] :=
  C7_success_shape
    (CallOutcome.response 200 (some (wrapBody
      [("anger", Json.num 1), ("disgust", Json.num 2), ("fear", Json.num 3),
       ("joy", Json.num 4), ("sadness", Json.num 5)])))
    [("joy", RVal.jsonv (Json.num 4)), ("anger", RVal.jsonv (Json.num 1)),
     ("disgust", RVal.jsonv (Json.num 2)), ("sadness", RVal.jsonv (Json.num 5)),
     ("fear", RVal.jsonv (Json.num 3)), ("dominant_emotion", RVal.strv "sadness")]
    rfl

/-- C8: for every well-formed body that lacks part of the fixed path
`document → emotion → predictions[0] → emotion` with a missing key, the
navigation's `KeyError` is caught by the dedicated handler (lines 105-108):
the `try` block yields the schema failure, the caller receives `None` with the
missing-key diagnostics, and nothing propagates. -/
theorem C8_missing_path_schema_failure :
    ∀ (status : Nat) (j : Json) (k : String),
      ¬(400 ≤ status ∧ status < 600) →
      navigate j = Except.error (NavErr.keyError k) →
      tryBody (CallOutcome.response status (some j)) =
        Except.error (Failure.keyError k) ∧
      emotion_detector (CallOutcome.response status (some j)) =
        (none, logMessage (Failure.keyError k)) := by
  intro s j k hstat hn
  have ht : tryBody (CallOutcome.response s (some j)) =
      Except.error (Failure.keyError k) := by
    simp [tryBody, hstat, hn, NavErr.toFailure]
  exact ⟨ht, by simp [emotion_detector, ht]⟩

theorem C8_witness :
    tryBody (CallOutcome.response 200
      (some (Json.obj [("document", Json.obj [])]))) =
      Except.error (Failure.keyError "emotion") ∧
    emotion_detector (CallOutcome.response 200
      (some (Json.obj [("document", Json.obj [])]))) =
      (none, logMessage (Failure.keyError "emotion")) :=
  C8_missing_path_schema_failure 200 (Json.obj [("document", Json.obj [])])
    "emotion" (by decide) rfl

/-- C9: `dominant_emotion` is the first-maximal key over ALL keys of the
response record in the record's own insertion order: an extra key outside the
five fixed labels carrying the strictly greatest score is returned as
`dominant_emotion`, while the five returned score fields are still looked up
by their fixed names; and a record missing any of the five labels yields
`None` even when otherwise well-formed. -/
theorem C9_extra_keys_and_fixed_lookups :
    (∀ (fields : List (String × Json)) (e : String) (q : Rat),
       (fields.map Prod.fst).Nodup →
       (∀ lab ∈ fiveLabels, lab ∈ fields.map Prod.fst) →
       (e, Json.num q) ∈ fields →
       e ∉ fiveLabels →
       (∀ p ∈ fields, p.1 ≠ e → Json.numLt p.2 q = true) →
       dominantOf (emotion_detector (CallOutcome.response 200
         (some (wrapBody fields)))) = some (RVal.strv e) ∧
       ∀ lab ∈ fiveLabels,
         ((emotion_detector (CallOutcome.response 200
            (some (wrapBody fields)))).1.bind (plookup lab)) =
           (plookup lab fields).map RVal.jsonv) ∧
    (∀ (fields : List (String × Json)) (lab : String),
       lab ∈ fiveLabels → lab ∉ fields.map Prod.fst →
       (emotion_detector (CallOutcome.response 200
         (some (wrapBody fields)))).1 = none) := by
  constructor
  · intro fields e q hnd hfive hmem hnot hmax
    obtain ⟨pre, post, hsplit⟩ := List.append_of_mem hmem
    subst hsplit
    obtain ⟨hpre_ne, hpost_ne⟩ := keys_split pre post e q hnd
    have hpy : pyMax (pre ++ (e, Json.num q) :: post) = Except.ok e :=
      pyMax_firstmax pre e q post
        (fun p hp => hmax p (List.mem_append_left _ hp) (hpre_ne p hp))
        (fun p hp => Json.numLe_of_numLt
          (hmax p (List.mem_append_right _ (List.mem_cons_of_mem _ hp))
            (hpost_ne p hp)))
    obtain ⟨vj, hj⟩ := plookup_eq_some_of_mem_keys "joy" _
      (hfive "joy" (by decide))
    obtain ⟨va, ha⟩ := plookup_eq_some_of_mem_keys "anger" _
      (hfive "anger" (by decide))
    obtain ⟨vd, hdg⟩ := plookup_eq_some_of_mem_keys "disgust" _
      (hfive "disgust" (by decide))
    obtain ⟨vs, hsd⟩ := plookup_eq_some_of_mem_keys "sadness" _
      (hfive "sadness" (by decide))
    obtain ⟨vf, hf⟩ := plookup_eq_some_of_mem_keys "fear" _
      (hfive "fear" (by decide))
    have hsucc := detector_success _ e vj va vd vs vf hpy hj ha hdg hsd hf
    constructor
    · simp [dominantOf, hsucc, plookup]
    · intro lab hlab
      simp only [fiveLabels, List.mem_cons, List.not_mem_nil, or_false] at hlab
      rcases hlab with rfl | rfl | rfl | rfl | rfl
      · simp [hsucc, plookup, ha]
      · simp [hsucc, plookup, hdg]
      · simp [hsucc, plookup, hf]
      · simp [hsucc, plookup, hj]
      · simp [hsucc, plookup, hsd]
  · intro fields lab hlab hnotin
    cases hm : pyMax fields with
    | error u =>
      have ht : tryBody (CallOutcome.response 200 (some (wrapBody fields))) =
          Except.error Failure.otherError := by
        rw [tryBody_wrap, hm]
      simp [emotion_detector, ht]
    | ok dom =>
      cases hb : buildResult fields dom with
      | error f =>
        have ht : tryBody (CallOutcome.response 200 (some (wrapBody fields)))
            = Except.error f := by
          rw [tryBody_wrap, hm]
          exact hb
        simp [emotion_detector, ht]
      | ok d =>
        exfalso
        obtain ⟨vj, va, vd, vs, vf, h1, h2, h3, h4, h5, -⟩ :=
          (buildResult_ok_iff fields dom d).mp hb
        simp only [fiveLabels, List.mem_cons, List.not_mem_nil, or_false]
          at hlab
        rcases hlab with rfl | rfl | rfl | rfl | rfl
        · exact hnotin (mem_keys_of_plookup_eq_some h2)
        · exact hnotin (mem_keys_of_plookup_eq_some h3)
        · exact hnotin (mem_keys_of_plookup_eq_some h5)
        · exact hnotin (mem_keys_of_plookup_eq_some h1)
        · exact hnotin (mem_keys_of_plookup_eq_some h4)

theorem C9_witness :
    dominantOf (emotion_detector (CallOutcome.response 200 (some (wrapBody
      [("neutral", Json.num 2), ("anger", Json.num 1), ("disgust", Json.num 1),
       ("fear", Json.num 1), ("joy", Json.num 1), ("sadness", Json.num 1)]))))
      = some (RVal.strv "neutral") ∧
    ((emotion_detector (CallOutcome.response 200 (some (wrapBody
      [("neutral", Json.num 2), ("anger", Json.num 1), ("disgust", Json.num 1),
       ("fear", Json.num 1), ("joy", Json.num 1),
       ("sadness", Json.num 1)])))).1.bind (plookup "joy")) =
      (plookup "joy"
        [("neutral", Json.num 2), ("anger", Json.num 1), ("disgust", Json.num 1),
         ("fear", Json.num 1), ("joy", Json.num 1),
         ("sadness", Json.num 1)]).map RVal.jsonv ∧
    (emotion_detector (CallOutcome.response 200
      (some (wrapBody [("anger", Json.num 1)])))).1 = none :=
  ⟨(C9_extra_keys_and_fixed_lookups.1
      [("neutral", Json.num 2), ("anger", Json.num 1), ("disgust", Json.num 1),
       ("fear", Json.num 1), ("joy", Json.num 1), ("sadness", Json.num 1)]
      "neutral" 2 (by decide) (by decide) (List.mem_cons_self _ _) (by decide)
      (by decide)).1,
   (C9_extra_keys_and_fixed_lookups.1
      [("neutral", Json.num 2), ("anger", Json.num 1), ("disgust", Json.num 1),
       ("fear", Json.num 1), ("joy", Json.num 1), ("sadness", Json.num 1)]
      "neutral" 2 (by decide) (by decide) (List.mem_cons_self _ _) (by decide)
      (by decide)).2 "joy" (by decide),
   C9_extra_keys_and_fixed_lookups.2 [("anger", Json.num 1)] "joy"
     (by decide) (by decide)⟩

/-- C10: for every outcome of the outbound call and response handling, the
adapter never lets an exception escape: it returns either the result map
(with no diagnostics) or `None` together with at least one diagnostic line —
every `Failure`, including the catch-all `otherError` of the final
`except Exception` clause, is absorbed locally. -/
theorem C10_no_exception_escape :
    ∀ o : CallOutcome,
      (∃ d, emotion_detector o = (some d, [])) ∨
      (∃ f, tryBody o = Except.error f ∧
        emotion_detector o = (none, logMessage f) ∧ logMessage f ≠ []) := by
  intro o
  cases h : tryBody o with
  | ok d => exact Or.inl ⟨d, by simp [emotion_detector, h]⟩
  | error f =>
    refine Or.inr ⟨f, rfl, by simp [emotion_detector, h], ?_⟩
    cases f <;> simp [logMessage]
